import Mathlib

/-!
Shallow embedding of the carp worker-reconciliation core
(package `controllers`: the worker reconciler and its template builders,
together with the data model they operate on).  Pure template builders are
translated as Lean functions; the client-facing stateful code is translated
as explicit state passing over an in-memory model of the management-plane
and remote API stores.  Go pointer locals captured by the CreateOrUpdate
mutation closures are modelled explicitly with a small heap, because the
closures reassign local pointer variables and fidelity to that behaviour
matters.
-/

namespace Carp

/-- Result of a fallible Go call: either a value or an error message.
Mirrors Go's `(T, error)` return convention. -/
inductive GoResult (α : Type) where
  | ok (a : α)
  | err (msg : String)
deriving DecidableEq

/-- Forget the error message, keeping only a successful value. -/
def GoResult.toOption {α : Type} : GoResult α → Option α
  | .ok a => some a
  | .err _ => none

/-- Kubernetes OwnerReference (the fields relevant to this core). -/
structure OwnerReference where
  apiVersion : String := ""
  kind : String := ""
  name : String := ""
  uid : String := ""
  controller : Bool := false
  blockOwnerDeletion : Bool := false
deriving DecidableEq, Inhabited

/-- Kubernetes ObjectMeta: identity plus the identity metadata that the
remote-secret projection deliberately drops.  Defaults are Go zero values. -/
structure ObjectMeta where
  name : String := ""
  ns : String := ""
  ownerReferences : List OwnerReference := []
  uid : String := ""
  resourceVersion : String := ""
  labels : List (String × String) := []
  annotations : List (String × String) := []
deriving DecidableEq, Inhabited

/-- corev1.ObjectReference (the fields set by the builders). -/
structure ObjectReference where
  apiVersion : String := ""
  kind : String := ""
  name : String := ""
deriving DecidableEq, Inhabited

/-- capiv1alpha3.NetworkRanges. -/
structure NetworkRanges where
  cidrBlocks : List String := []
deriving DecidableEq, Inhabited

/-- capiv1alpha3.ClusterNetwork (pods ranges only, as used by getCluster). -/
structure ClusterNetwork where
  pods : Option NetworkRanges := none
deriving DecidableEq, Inhabited

/-- capiv1alpha3.ClusterSpec as populated by getCluster. -/
structure ClusterSpec where
  clusterNetwork : Option ClusterNetwork := none
  controlPlaneRef : Option ObjectReference := none
  infrastructureRef : Option ObjectReference := none
deriving DecidableEq, Inhabited

/-- capiv1alpha3.Cluster. -/
structure Cluster where
  metadata : ObjectMeta := {}
  spec : ClusterSpec := {}
deriving DecidableEq, Inhabited

/-- capzv1alpha3.VnetSpec (name only, as used by getAzureCluster). -/
structure VnetSpec where
  name : String := ""
deriving DecidableEq, Inhabited

/-- capzv1alpha3.NetworkSpec (vnet only, as used by getAzureCluster). -/
structure NetworkSpec where
  vnet : VnetSpec := {}
deriving DecidableEq, Inhabited

/-- capzv1alpha3.AzureClusterSpec as populated by getAzureCluster. -/
structure AzureClusterSpec where
  location : String := ""
  networkSpec : NetworkSpec := {}
  resourceGroup : String := ""
deriving DecidableEq, Inhabited

/-- capzv1alpha3.AzureCluster. -/
structure AzureCluster where
  metadata : ObjectMeta := {}
  spec : AzureClusterSpec := {}
deriving DecidableEq, Inhabited

/-- capzv1alpha3.ManagedDisk. -/
structure ManagedDisk where
  storageAccountType : String := ""
deriving DecidableEq, Inhabited

/-- capzv1alpha3.OSDisk. -/
structure OSDisk where
  diskSizeGB : Int := 0
  managedDisk : ManagedDisk := {}
  osType : String := ""
deriving DecidableEq, Inhabited

/-- capzv1alpha3.AzureMachineSpec as populated by getMachineTemplate. -/
structure AzureMachineSpec where
  location : String := ""
  osDisk : OSDisk := {}
  vmSize : String := ""
deriving DecidableEq, Inhabited

/-- capzv1alpha3.AzureMachineTemplateResource. -/
structure AzureMachineTemplateResource where
  spec : AzureMachineSpec := {}
deriving DecidableEq, Inhabited

/-- capzv1alpha3.AzureMachineTemplateSpec. -/
structure AzureMachineTemplateSpec where
  template : AzureMachineTemplateResource := {}
deriving DecidableEq, Inhabited

/-- capzv1alpha3.AzureMachineTemplate. -/
structure AzureMachineTemplate where
  metadata : ObjectMeta := {}
  spec : AzureMachineTemplateSpec := {}
deriving DecidableEq, Inhabited

/-- kubeadmv1beta1.HostPathMount. -/
structure HostPathMount where
  hostPath : String := ""
  mountPath : String := ""
  name : String := ""
  readOnly : Bool := false
deriving DecidableEq, Inhabited

/-- kubeadmv1beta1.ControlPlaneComponent. -/
structure ControlPlaneComponent where
  extraArgs : List (String × String) := []
  extraVolumes : List HostPathMount := []
deriving DecidableEq, Inhabited

/-- kubeadmv1beta1.APIServer; the timeout is kept in minutes, as written
in the source (`time.Minute * 20`). -/
structure APIServer where
  controlPlaneComponent : ControlPlaneComponent := {}
  timeoutForControlPlaneMinutes : Option Nat := none
deriving DecidableEq, Inhabited

/-- kubeadmv1beta1.ClusterConfiguration (the fields the builder sets). -/
structure ClusterConfiguration where
  apiServer : APIServer := {}
  controllerManager : ControlPlaneComponent := {}
deriving DecidableEq, Inhabited

/-- kubeadmv1beta1.NodeRegistrationOptions. -/
structure NodeRegistrationOptions where
  kubeletExtraArgs : List (String × String) := []
  name : String := ""
deriving DecidableEq, Inhabited

/-- kubeadmv1beta1.InitConfiguration. -/
structure InitConfiguration where
  nodeRegistration : NodeRegistrationOptions := {}
deriving DecidableEq, Inhabited

/-- kubeadmv1beta1.JoinConfiguration. -/
structure JoinConfiguration where
  nodeRegistration : NodeRegistrationOptions := {}
deriving DecidableEq, Inhabited

/-- capbkv1alpha3.File. -/
structure File where
  owner : String := ""
  path : String := ""
  permissions : String := ""
  content : String := ""
deriving DecidableEq, Inhabited

/-- capbkv1alpha3.KubeadmConfigSpec (the fields the builders set). -/
structure KubeadmConfigSpec where
  clusterConfiguration : Option ClusterConfiguration := none
  initConfiguration : Option InitConfiguration := none
  joinConfiguration : Option JoinConfiguration := none
  files : List File := []
  useExperimentalRetryJoin : Bool := false
deriving DecidableEq, Inhabited

/-- kcpv1alpha3.KubeadmControlPlaneSpec. -/
structure KubeadmControlPlaneSpec where
  replicas : Option Int := none
  version : String := ""
  infrastructureTemplate : ObjectReference := {}
  kubeadmConfigSpec : KubeadmConfigSpec := {}
deriving DecidableEq, Inhabited

/-- kcpv1alpha3.KubeadmControlPlane. -/
structure KubeadmControlPlane where
  metadata : ObjectMeta := {}
  spec : KubeadmControlPlaneSpec := {}
deriving DecidableEq, Inhabited

/-- capbkv1alpha3.KubeadmConfigTemplateResource. -/
structure KubeadmConfigTemplateResource where
  spec : KubeadmConfigSpec := {}
deriving DecidableEq, Inhabited

/-- capbkv1alpha3.KubeadmConfigTemplateSpec. -/
structure KubeadmConfigTemplateSpec where
  template : KubeadmConfigTemplateResource := {}
deriving DecidableEq, Inhabited

/-- capbkv1alpha3.KubeadmConfigTemplate. -/
structure KubeadmConfigTemplate where
  metadata : ObjectMeta := {}
  spec : KubeadmConfigTemplateSpec := {}
deriving DecidableEq, Inhabited

/-- metav1.LabelSelector (empty in getMachineDeployment). -/
structure LabelSelector where
  matchLabels : List (String × String) := []
deriving DecidableEq, Inhabited

/-- capiv1alpha3.Bootstrap. -/
structure Bootstrap where
  configRef : Option ObjectReference := none
deriving DecidableEq, Inhabited

/-- capiv1alpha3.MachineSpec as populated by getMachineDeployment. -/
structure MachineSpec where
  clusterName : String := ""
  bootstrap : Bootstrap := {}
  infrastructureRef : ObjectReference := {}
  version : Option String := none
deriving DecidableEq, Inhabited

/-- capiv1alpha3.MachineTemplateSpec. -/
structure MachineTemplateSpec where
  spec : MachineSpec := {}
deriving DecidableEq, Inhabited

/-- capiv1alpha3.MachineDeploymentSpec as populated by getMachineDeployment. -/
structure MachineDeploymentSpec where
  clusterName : String := ""
  replicas : Option Int := none
  selector : LabelSelector := {}
  template : MachineTemplateSpec := {}
deriving DecidableEq, Inhabited

/-- capiv1alpha3.MachineDeployment. -/
structure MachineDeployment where
  metadata : ObjectMeta := {}
  spec : MachineDeploymentSpec := {}
deriving DecidableEq, Inhabited

/-- corev1.Secret (metadata, data payload, and type). -/
structure Secret where
  metadata : ObjectMeta := {}
  data : List (String × String) := []
  secretType : String := ""
deriving DecidableEq, Inhabited

/-- corev1.Namespace (metadata only; cluster scoped, so its `ns` stays ""). -/
structure NamespaceObj where
  metadata : ObjectMeta := {}
deriving DecidableEq, Inhabited

/-- Modelled from the spec: the Worker resource type (its Go source file,
worker_types.go, is not among the provided sources; only its uses in the
reconciler are).  WorkerSpec per spec section 3: location, replicas,
capacity, version. -/
structure WorkerSpec where
  location : String := ""
  replicas : Int := 0
  capacity : Int := 0
  version : String := ""
deriving DecidableEq, Inhabited

/-- Modelled from the spec: WorkerStatus per spec section 3: phase,
nullable availableCapacity, lastScheduledTime (time modelled as Nat). -/
structure WorkerStatus where
  phase : String := ""
  availableCapacity : Option Int := none
  lastScheduledTime : Option Nat := none
deriving DecidableEq, Inhabited

/-- Modelled from the spec: the Worker object (metadata, spec, status). -/
structure Worker where
  metadata : ObjectMeta := {}
  spec : WorkerSpec := {}
  status : WorkerStatus := {}
deriving DecidableEq, Inhabited

/-- Phase constant WorkerPending used by the reconciler entry point. -/
def workerPending : String := "Pending"

/-- Phase constant WorkerRunning used by the reconciler entry point. -/
def workerRunning : String := "Running"

/-! ## Cloud provider configuration (templates.go, getCloudProviderConfig) -/

/-- Constant auth.EnvironmentName from the go-autorest auth package. -/
def azureEnvironmentName : String := "AZURE_ENVIRONMENT"

/-- Constant auth.TenantID. -/
def azureTenantID : String := "AZURE_TENANT_ID"

/-- Constant auth.SubscriptionID. -/
def azureSubscriptionID : String := "AZURE_SUBSCRIPTION_ID"

/-- Constant auth.ClientID. -/
def azureClientID : String := "AZURE_CLIENT_ID"

/-- Constant auth.ClientSecret. -/
def azureClientSecret : String := "AZURE_CLIENT_SECRET"

/-- Go map indexing `settings[k]`: the zero value "" when the key is absent. -/
def getSetting (settings : List (String × String)) (k : String) : String :=
  match settings.find? (fun kv => kv.fst == k) with
  | some kv => kv.snd
  | none => ""

/-- The CloudProviderConfig struct of templates.go (json field tags noted in
the serializer below). -/
structure CloudProviderConfig where
  cloud : String := ""
  tenantID : String := ""
  subscriptionID : String := ""
  aadClientID : String := ""
  aadClientSecret : String := ""
  resourceGroup : String := ""
  securityGroupName : String := ""
  location : String := ""
  vmType : String := ""
  vnetName : String := ""
  vnetResourceGroup : String := ""
  subnetName : String := ""
  routeTableName : String := ""
  loadBalancerSku : String := ""
  maximumLoadBalancerRuleCount : Int := 0
  useManagedIdentityExtension : Bool := false
  useInstanceMetadata : Bool := false
deriving DecidableEq, Inhabited

/-- Escape of one character inside a JSON string, following Go's
encoding/json encoder on the character classes that can occur in the
configuration values (quote, backslash, common control characters, and the
HTML-escaped characters). -/
def jsonEscapeChar (c : Char) : String :=
  if c = '"' then "\\\""
  else if c = '\\' then "\\\\"
  else if c = '\n' then "\\n"
  else if c = '\r' then "\\r"
  else if c = '\t' then "\\t"
  else if c = '<' then "\\u003c"
  else if c = '>' then "\\u003e"
  else if c = '&' then "\\u0026"
  else String.singleton c

/-- Escape of a whole string for embedding in JSON. -/
def jsonEscape (s : String) : String :=
  String.join (s.toList.map jsonEscapeChar)

/-- A JSON string literal. -/
def jsonStr (s : String) : String :=
  "\"" ++ jsonEscape s ++ "\""

/-- A JSON bool literal. -/
def jsonBool (b : Bool) : String :=
  if b then "true" else "false"

/-- Go json.Marshal of CloudProviderConfig: one object with the struct's
fields, in declaration order, under their json tags. -/
def marshalCloudProviderConfig (c : CloudProviderConfig) : String :=
  "\x7b" ++
  "\"cloud\":" ++ jsonStr c.cloud ++ "," ++
  "\"tenantId\":" ++ jsonStr c.tenantID ++ "," ++
  "\"subscriptionId\":" ++ jsonStr c.subscriptionID ++ "," ++
  "\"aadClientId\":" ++ jsonStr c.aadClientID ++ "," ++
  "\"aadClientSecret\":" ++ jsonStr c.aadClientSecret ++ "," ++
  "\"resourceGroup\":" ++ jsonStr c.resourceGroup ++ "," ++
  "\"securityGroupName\":" ++ jsonStr c.securityGroupName ++ "," ++
  "\"location\":" ++ jsonStr c.location ++ "," ++
  "\"vmType\":" ++ jsonStr c.vmType ++ "," ++
  "\"vnetName\":" ++ jsonStr c.vnetName ++ "," ++
  "\"vnetResourceGroup\":" ++ jsonStr c.vnetResourceGroup ++ "," ++
  "\"subnetName\":" ++ jsonStr c.subnetName ++ "," ++
  "\"routeTableName\":" ++ jsonStr c.routeTableName ++ "," ++
  "\"loadBalancerSku\":" ++ jsonStr c.loadBalancerSku ++ "," ++
  "\"maximumLoadBalancerRuleCount\":" ++ toString c.maximumLoadBalancerRuleCount ++ "," ++
  "\"useManagedIdentityExtension\":" ++ jsonBool c.useManagedIdentityExtension ++ "," ++
  "\"useInstanceMetadata\":" ++ jsonBool c.useInstanceMetadata ++
  "\x7d"

/-- templates.go getCloudProviderConfig: build the config struct from the
settings map and marshal it. -/
def getCloudProviderConfig (cluster location : String)
    (settings : List (String × String)) : GoResult String :=
  let config : CloudProviderConfig :=
    { cloud := getSetting settings azureEnvironmentName
      tenantID := getSetting settings azureTenantID
      subscriptionID := getSetting settings azureSubscriptionID
      aadClientID := getSetting settings azureClientID
      aadClientSecret := getSetting settings azureClientSecret
      resourceGroup := cluster
      securityGroupName := cluster ++ "-node-nsg"
      location := location
      vmType := "standard"
      vnetName := cluster ++ "-vnet"
      vnetResourceGroup := cluster
      subnetName := cluster ++ "-node-subnet"
      routeTableName := cluster ++ "-node-routetable"
      loadBalancerSku := "standard"
      maximumLoadBalancerRuleCount := 250
      useManagedIdentityExtension := false
      useInstanceMetadata := true }
  GoResult.ok (marshalCloudProviderConfig config)

/-! ## Template builders (templates.go) -/

/-- templates.go getMachineDeployment. -/
def getMachineDeployment (worker : Worker) : MachineDeployment :=
  { metadata := { name := worker.metadata.name }
    spec :=
      { clusterName := worker.metadata.name
        replicas := some worker.spec.replicas
        selector := {}
        template :=
          { spec :=
              { clusterName := worker.metadata.name
                bootstrap :=
                  { configRef := some
                      { apiVersion := "bootstrap.cluster.x-k8s.io/v1alpha3"
                        name := worker.metadata.name
                        kind := "KubeadmConfigTemplate" } }
                infrastructureRef :=
                  { apiVersion := "infrastructure.cluster.x-k8s.io/v1alpha3"
                    name := worker.metadata.name
                    kind := "AzureMachineTemplate" }
                version := some worker.spec.version } } } }

/-- templates.go getMachineTemplate. -/
def getMachineTemplate (cluster location : String) : AzureMachineTemplate :=
  { metadata := { name := cluster }
    spec :=
      { template :=
          { spec :=
              { location := location
                osDisk :=
                  { diskSizeGB := 1024
                    managedDisk := { storageAccountType := "Premium_LRS" }
                    osType := "Linux" }
                vmSize := "Standard_D8s_v3" } } } }

/-- templates.go getCluster.  The location and settings parameters are
accepted but not used by the source function. -/
def getCluster (cluster location : String)
    (settings : List (String × String)) : Cluster :=
  { metadata := { name := cluster }
    spec :=
      { clusterNetwork := some { pods := some { cidrBlocks := ["192.168.0.0/16"] } }
        controlPlaneRef := some
          { apiVersion := "controlplane.cluster.x-k8s.io/v1alpha3"
            kind := "KubeadmControlPlane"
            name := cluster }
        infrastructureRef := some
          { apiVersion := "infrastructure.cluster.x-k8s.io/v1alpha3"
            kind := "AzureCluster"
            name := cluster } } }

/-- templates.go getAzureCluster. -/
def getAzureCluster (cluster location : String) : AzureCluster :=
  { metadata := { name := cluster }
    spec :=
      { location := location
        networkSpec := { vnet := { name := cluster ++ "-vnet" } }
        resourceGroup := cluster } }

/-- The kubelet node-name template used by the kubeadm builders
(a cloud-init placeholder, copied verbatim from the source). -/
def nodeNameTemplate : String :=
  "\x7b\x7b ds.meta_data[\"local_hostname\"] \x7d\x7d"

/-- templates.go getKubeadmControlPlane.  Note that the replica count is the
local constant 1 and the version is the literal "v1.17.4". -/
def getKubeadmControlPlane (cluster location : String)
    (settings : List (String × String)) : GoResult KubeadmControlPlane :=
  match getCloudProviderConfig cluster location settings with
  | .err _ => .err "failed to generate cloud provider config"
  | .ok data =>
    .ok
      { metadata := { name := cluster }
        spec :=
          { replicas := some 1
            version := "v1.17.4"
            infrastructureTemplate :=
              { apiVersion := "infrastructure.cluster.x-k8s.io/v1alpha3"
                kind := "AzureMachineTemplate"
                name := cluster }
            kubeadmConfigSpec :=
              { clusterConfiguration := some
                  { apiServer :=
                      { controlPlaneComponent :=
                          { extraArgs :=
                              [("cloud-config", "/etc/kubernetes/azure.json"),
                               ("cloud-provider", "azure")]
                            extraVolumes :=
                              [{ hostPath := "/etc/kubernetes/azure.json"
                                 mountPath := "/etc/kubernetes/azure.json"
                                 name := "cloud-config"
                                 readOnly := true }] }
                        timeoutForControlPlaneMinutes := some 20 }
                    controllerManager :=
                      { extraArgs :=
                          [("allocate-node-cidrs", "false"),
                           ("cloud-config", "/etc/kubernetes/azure.json"),
                           ("cloud-provider", "azure")]
                        extraVolumes :=
                          [{ hostPath := "/etc/kubernetes/azure.json"
                             mountPath := "/etc/kubernetes/azure.json"
                             name := "cloud-config"
                             readOnly := true }] } }
                initConfiguration := some
                  { nodeRegistration :=
                      { kubeletExtraArgs :=
                          [("cloud-config", "/etc/kubernetes/azure.json"),
                           ("cloud-provider", "azure")]
                        name := nodeNameTemplate } }
                joinConfiguration := some
                  { nodeRegistration :=
                      { kubeletExtraArgs :=
                          [("cloud-config", "/etc/kubernetes/azure.json"),
                           ("cloud-provider", "azure")]
                        name := nodeNameTemplate } }
                files :=
                  [{ owner := "root:root"
                     path := "/etc/kubernetes/azure.json"
                     permissions := "0644"
                     content := data }]
                useExperimentalRetryJoin := true } } }

/-- templates.go getKubeadmConfigTemplate. -/
def getKubeadmConfigTemplate (cluster location : String)
    (settings : List (String × String)) : GoResult KubeadmConfigTemplate :=
  match getCloudProviderConfig cluster location settings with
  | .err _ => .err "failed to generate cloud provider config"
  | .ok data =>
    .ok
      { metadata := { name := cluster }
        spec :=
          { template :=
              { spec :=
                  { files :=
                      [{ owner := "root:root"
                         path := "/etc/kubernetes/azure.json"
                         permissions := "0644"
                         content := data }]
                    joinConfiguration := some
                      { nodeRegistration :=
                          { kubeletExtraArgs :=
                              [("cloud-config", "/etc/kubernetes/azure.json"),
                               ("cloud-provider", "azure")]
                            name := nodeNameTemplate } } } } } }

/-! ## Object stores, Go pointer heap, and the convergence primitive -/

/-- Access to an object's metadata, for keying stores by (namespace, name). -/
class HasMeta (α : Type) where
  meta : α → ObjectMeta

instance : HasMeta Cluster := ⟨Cluster.metadata⟩

instance : HasMeta KubeadmControlPlane := ⟨KubeadmControlPlane.metadata⟩

instance : HasMeta KubeadmConfigTemplate := ⟨KubeadmConfigTemplate.metadata⟩

instance : HasMeta AzureMachineTemplate := ⟨AzureMachineTemplate.metadata⟩

instance : HasMeta MachineDeployment := ⟨MachineDeployment.metadata⟩

instance : HasMeta AzureCluster := ⟨AzureCluster.metadata⟩

instance : HasMeta Secret := ⟨Secret.metadata⟩

instance : HasMeta NamespaceObj := ⟨NamespaceObj.metadata⟩

instance : HasMeta Worker := ⟨Worker.metadata⟩

/-- Fetch by (namespace, name) from an in-memory store of one object kind. -/
def storeGet {α : Type} [HasMeta α] (s : List α) (ns name : String) : Option α :=
  s.find? (fun x => (HasMeta.meta x).ns == ns && (HasMeta.meta x).name == name)

/-- Create-or-replace by (namespace, name) in an in-memory store. -/
def storePut {α : Type} [HasMeta α] (s : List α) (o : α) : List α :=
  o :: s.filter (fun x =>
    !((HasMeta.meta x).ns == (HasMeta.meta o).ns &&
      (HasMeta.meta x).name == (HasMeta.meta o).name))

/-- A tiny heap of Go objects of one kind; pointers are indices.  Needed
because the CreateOrUpdate mutation closures reassign local pointer
variables, and the distinction between the pointed-to object and the
variable holding the pointer is what the source code's behaviour hinges on. -/
structure Heap (α : Type) where
  cells : List α
deriving DecidableEq

/-- Dereference a pointer. -/
def Heap.get {α : Type} [Inhabited α] (h : Heap α) (p : Nat) : α :=
  h.cells.getD p default

/-- Write through a pointer. -/
def Heap.set {α : Type} (h : Heap α) (p : Nat) (v : α) : Heap α :=
  ⟨h.cells.set p v⟩

/-- The local pointer variables captured by each reconcile function's
mutation closure: `template` and `want`. -/
structure Locals where
  template : Nat
  want : Nat
deriving DecidableEq

/-- Outcome classification of controllerutil.CreateOrUpdate. -/
inductive OpResult where
  | noop
  | created
  | updated
deriving DecidableEq

/-- controllerutil.CreateOrUpdate from sigs.k8s.io/controller-runtime (the
external convergence primitive this core is built on): look the object up by
the key of the object pointed to by `objPtr`; when absent, run the mutation
closure and create the pointed-to object; when present, read the live state
into the pointed-to object, snapshot it, run the mutation closure, and issue
an update only when the pointed-to object now differs from the snapshot.
The closure receives the local variable environment and the heap; the
primitive itself always reads the object back through `objPtr`, the pointer
value it was given at the call site.  `broken` injects an underlying API
failure (the store's Get failing), which the primitive surfaces verbatim. -/
def createOrUpdate {α : Type} [HasMeta α] [Inhabited α] [DecidableEq α]
    (broken : Bool) (s : List α) (heap : Heap α) (objPtr : Nat)
    (f : Locals → Heap α → GoResult (Locals × Heap α)) (l : Locals) :
    GoResult (List α × Heap α × OpResult) :=
  if broken then .err "api error"
  else
    let obj := heap.get objPtr
    match storeGet s (HasMeta.meta obj).ns (HasMeta.meta obj).name with
    | none =>
      match f l heap with
      | .err e => .err e
      | .ok (_, heap1) => .ok (storePut s (heap1.get objPtr), heap1, OpResult.created)
    | some live =>
      let heap1 := heap.set objPtr live
      let existing := heap1.get objPtr
      match f l heap1 with
      | .err e => .err e
      | .ok (_, heap2) =>
        if heap2.get objPtr = existing then .ok (s, heap2, OpResult.noop)
        else .ok (storePut s (heap2.get objPtr), heap2, OpResult.updated)

/-! ## The reconciler's world -/

/-- Pipeline stage identifiers, in the reconciler's own naming. -/
inductive StageId where
  | cluster
  | kubeadmConfigTemplate
  | kubeadmControlPlane
  | machineTemplate
  | machineDeployment
  | azureCluster
  | external
deriving DecidableEq

/-- Ghost trace events: which stages started, and which status writes were
persisted.  Pure observation; no stage reads the trace. -/
inductive Event where
  | stageStart (s : StageId)
  | statusWrite (ns name : String)
deriving DecidableEq

/-- The state threaded through one reconcile invocation: the management
plane stores (one per kind), the remote cluster's stores, fault-injection
flags for the underlying APIs, the clock, and the ghost trace.  The fault
flags model the environment (upstream API errors, spec section 7 taxonomy
(c) and (d)); the stores model the API servers. -/
structure World where
  clusters : List Cluster := []
  kubeadmConfigTemplates : List KubeadmConfigTemplate := []
  kubeadmControlPlanes : List KubeadmControlPlane := []
  azureMachineTemplates : List AzureMachineTemplate := []
  machineDeployments : List MachineDeployment := []
  azureClusters : List AzureCluster := []
  secrets : List Secret := []
  workers : List Worker := []
  remoteNamespaces : List NamespaceObj := []
  remoteSecrets : List Secret := []
  remoteApplied : List String := []
  trace : List Event := []
  now : Nat := 0
  failWorkerGet : Bool := false
  failClusters : Bool := false
  failKubeadmConfigTemplates : Bool := false
  failKubeadmControlPlanes : Bool := false
  failAzureMachineTemplates : Bool := false
  failMachineDeployments : Bool := false
  failAzureClusters : Bool := false
  failRemoteNamespaces : Bool := false
  failRemoteSecrets : Bool := false
  newClientFails : Bool := false
  applyFails : Bool := false
  statusUpdateFails : Bool := false
deriving DecidableEq

/-- The reconciler's configuration: the injected Azure settings map
(WorkerReconciler.AzureSettings). -/
structure Cfg where
  azureSettings : List (String × String) := []

/-- A reconcile request key (namespace, name). -/
structure Key where
  ns : String := ""
  name : String := ""
deriving DecidableEq

/-- ctrl.Result; the reconciler only ever returns the zero value. -/
structure CtrlResult where
  requeue : Bool := false
  requeueAfter : Nat := 0
deriving DecidableEq

/-- What one Reconcile invocation returns: the evolved world, the
controller result, and the error (none = nil). -/
structure ReconcileOut where
  world : World
  result : CtrlResult := {}
  err : Option String := none
deriving DecidableEq

/-- Append a ghost trace event. -/
def addEvent (w : World) (e : Event) : World :=
  { w with trace := w.trace ++ [e] }

/-! ## Pipeline stages (worker reconciler source) -/

/-- reconcileCluster: build the Cluster template, set its namespace, deep
copy it into `want`, and converge through createOrUpdate with the closure
`template = want` — which reassigns the local pointer variable only. -/
def reconcileCluster (r : Cfg) (worker : Worker) (w : World) :
    World × GoResult Unit :=
  let w := addEvent w (Event.stageStart StageId.cluster)
  let template := getCluster worker.metadata.name worker.spec.location r.azureSettings
  let template := { template with metadata := { template.metadata with ns := worker.metadata.ns } }
  let want := template
  let heap : Heap Cluster := ⟨[template, want]⟩
  let l : Locals := ⟨0, 1⟩
  match createOrUpdate w.failClusters w.clusters heap 0
      (fun l h => .ok ({ l with template := l.want }, h)) l with
  | .err e => (w, .err ("failed to create/update cluster: " ++ e))
  | .ok (s, _, _) => ({ w with clusters := s }, .ok ())

/-- reconcileKubeadmConfigTemplate, same closure pattern. -/
def reconcileKubeadmConfigTemplate (r : Cfg) (worker : Worker) (w : World) :
    World × GoResult Unit :=
  let w := addEvent w (Event.stageStart StageId.kubeadmConfigTemplate)
  match getKubeadmConfigTemplate worker.metadata.name worker.spec.location r.azureSettings with
  | .err e => (w, .err ("failed to get azure settings: " ++ e))
  | .ok template =>
    let template := { template with metadata := { template.metadata with ns := worker.metadata.ns } }
    let want := template
    let heap : Heap KubeadmConfigTemplate := ⟨[template, want]⟩
    let l : Locals := ⟨0, 1⟩
    match createOrUpdate w.failKubeadmConfigTemplates w.kubeadmConfigTemplates heap 0
        (fun l h => .ok ({ l with template := l.want }, h)) l with
    | .err e => (w, .err ("failed to create/update kubeadm config template: " ++ e))
    | .ok (s, _, _) => ({ w with kubeadmConfigTemplates := s }, .ok ())

/-- reconcileKubeadmControlPlane, same closure pattern. -/
def reconcileKubeadmControlPlane (r : Cfg) (worker : Worker) (w : World) :
    World × GoResult Unit :=
  let w := addEvent w (Event.stageStart StageId.kubeadmControlPlane)
  match getKubeadmControlPlane worker.metadata.name worker.spec.location r.azureSettings with
  | .err e => (w, .err ("failed to get azure settings: " ++ e))
  | .ok template =>
    let template := { template with metadata := { template.metadata with ns := worker.metadata.ns } }
    let want := template
    let heap : Heap KubeadmControlPlane := ⟨[template, want]⟩
    let l : Locals := ⟨0, 1⟩
    match createOrUpdate w.failKubeadmControlPlanes w.kubeadmControlPlanes heap 0
        (fun l h => .ok ({ l with template := l.want }, h)) l with
    | .err e => (w, .err ("failed to create/update kubeadm control plane: " ++ e))
    | .ok (s, _, _) => ({ w with kubeadmControlPlanes := s }, .ok ())

/-- reconcileMachineTemplate, same closure pattern. -/
def reconcileMachineTemplate (r : Cfg) (worker : Worker) (w : World) :
    World × GoResult Unit :=
  let w := addEvent w (Event.stageStart StageId.machineTemplate)
  let template := getMachineTemplate worker.metadata.name worker.spec.location
  let template := { template with metadata := { template.metadata with ns := worker.metadata.ns } }
  let want := template
  let heap : Heap AzureMachineTemplate := ⟨[template, want]⟩
  let l : Locals := ⟨0, 1⟩
  match createOrUpdate w.failAzureMachineTemplates w.azureMachineTemplates heap 0
      (fun l h => .ok ({ l with template := l.want }, h)) l with
  | .err e => (w, .err ("failed to create/update machine template: " ++ e))
  | .ok (s, _, _) => ({ w with azureMachineTemplates := s }, .ok ())

/-- reconcileMachineDeployment, same closure pattern. -/
def reconcileMachineDeployment (r : Cfg) (worker : Worker) (w : World) :
    World × GoResult Unit :=
  let w := addEvent w (Event.stageStart StageId.machineDeployment)
  let template := getMachineDeployment worker
  let template := { template with metadata := { template.metadata with ns := worker.metadata.ns } }
  let want := template
  let heap : Heap MachineDeployment := ⟨[template, want]⟩
  let l : Locals := ⟨0, 1⟩
  match createOrUpdate w.failMachineDeployments w.machineDeployments heap 0
      (fun l h => .ok ({ l with template := l.want }, h)) l with
  | .err e => (w, .err ("failed to create/update machine deployment: " ++ e))
  | .ok (s, _, _) => ({ w with machineDeployments := s }, .ok ())

/-- The controller owner reference that controllerutil.SetControllerReference
attaches for a Worker owner (modelling the external library helper: it sets
the object's owner references to the controller reference of the owner). -/
def ownerReferenceFor (worker : Worker) : OwnerReference :=
  { apiVersion := "infrastructure.cluster.x-k8s.io/v1alpha1"
    kind := "Worker"
    name := worker.metadata.name
    uid := worker.metadata.uid
    controller := true
    blockOwnerDeletion := true }

/-- controllerutil.SetControllerReference applied to an AzureCluster. -/
def setControllerReference (worker : Worker) (obj : AzureCluster) : AzureCluster :=
  { obj with metadata := { obj.metadata with ownerReferences := [ownerReferenceFor worker] } }

/-- reconcileAzureCluster: same pattern, but the mutation closure first sets
the controller reference on the object pointed to by the `want` local, then
reassigns the `template` local to `want`. -/
def reconcileAzureCluster (r : Cfg) (worker : Worker) (w : World) :
    World × GoResult Unit :=
  let w := addEvent w (Event.stageStart StageId.azureCluster)
  let template := getAzureCluster worker.metadata.name worker.spec.location
  let template := { template with metadata := { template.metadata with ns := worker.metadata.ns } }
  let want := template
  let heap : Heap AzureCluster := ⟨[template, want]⟩
  let l : Locals := ⟨0, 1⟩
  match createOrUpdate w.failAzureClusters w.azureClusters heap 0
      (fun l h =>
        let h := h.set l.want (setControllerReference worker (h.get l.want))
        .ok ({ l with template := l.want }, h)) l with
  | .err e => (w, .err ("failed to create/update azure cluster: " ++ e))
  | .ok (s, _, _) => ({ w with azureClusters := s }, .ok ())

/-- Constant secret.KubeconfigDataName from cluster-api's secret package. -/
def kubeconfigDataName : String := "value"

/-- The calico manifest URL applied to the remote cluster. -/
def calicoURL : String :=
  "https://raw.githubusercontent.com/juan-lee/cluster-api-provider-azure/hackathon/templates/addons/calico.yaml"

/-- Modelled from the spec: remote.NewClient (package internal/remote, not
among the provided sources) constructs a client bound to the remote API from
the kubeconfig payload; it is independently fallible (spec section 4.5 step
4), here through the injected flag. -/
def newRemoteClient (w : World) (data : String) : GoResult Unit :=
  if w.newClientFails then .err "failed to create REST configuration"
  else .ok ()

/-- The fresh copy of the credential secret projected into the remote
cluster (reconcileExternal): only name, namespace and the data payload of
the source secret; every other field is left at its zero value. -/
def projectedRemoteSecret (azureSecret : Secret) : Secret :=
  { metadata :=
      { name := "capz-manager-bootstrap-credentials"
        ns := "capz-system" }
    data := azureSecret.data }

/-- reconcileExternal: fetch the operator credential secret and the remote
kubeconfig secret, extract the kubeconfig payload, build the remote client,
ensure the remote namespace, project the credential secret, and apply the
calico manifest. -/
def reconcileExternal (r : Cfg) (worker : Worker) (w : World) :
    World × GoResult Unit :=
  let w := addEvent w (Event.stageStart StageId.external)
  match storeGet w.secrets "capz-system" "capz-manager-bootstrap-credentials" with
  | none => (w, .err "failed to get azure manager secret to apply to cluster")
  | some azureSecret =>
    match storeGet w.secrets worker.metadata.ns (worker.metadata.name ++ "-kubeconfig") with
    | none => (w, .err "failed to get remote kubeconfig to apply to cluster")
    | some kubeconfigSecret =>
      match kubeconfigSecret.data.find? (fun kv => kv.fst == kubeconfigDataName) with
      | none => (w, .err "missing key in secret data")
      | some data =>
        match newRemoteClient w data.snd with
        | .err e => (w, .err e)
        | .ok () =>
          let remoteNamespace : NamespaceObj := { metadata := { name := "capz-system" } }
          let nsHeap : Heap NamespaceObj := ⟨[remoteNamespace]⟩
          match createOrUpdate w.failRemoteNamespaces w.remoteNamespaces nsHeap 0
              (fun l h => .ok (l, h)) ⟨0, 0⟩ with
          | .err _ => (w, .err "failed to create remote azure manager namespace")
          | .ok (rns, _, _) =>
            let w := { w with remoteNamespaces := rns }
            let remoteSecret := projectedRemoteSecret azureSecret
            let want := remoteSecret
            let secHeap : Heap Secret := ⟨[remoteSecret, want]⟩
            match createOrUpdate w.failRemoteSecrets w.remoteSecrets secHeap 0
                (fun l h => .ok ({ l with template := l.want }, h)) ⟨0, 1⟩ with
            | .err _ => (w, .err "failed to create remote azure manager secret")
            | .ok (rsecs, _, _) =>
              let w := { w with remoteSecrets := rsecs }
              if w.applyFails then (w, .err "failed to apply calico config")
              else ({ w with remoteApplied := w.remoteApplied ++ [calicoURL] }, .ok ())

/-! ## The reconciler entry point -/

/-- A stage of the pipeline, as stored in the reconcilers slice. -/
def StageFn : Type :=
  Cfg → Worker → World → World × GoResult Unit

/-- The reconcilers slice, in source order. -/
def reconcilers : List StageFn :=
  [reconcileCluster,
   reconcileKubeadmConfigTemplate,
   reconcileKubeadmControlPlane,
   reconcileMachineTemplate,
   reconcileMachineDeployment,
   reconcileAzureCluster,
   reconcileExternal]

/-- The stage loop: run each stage in order; the first error is wrapped and
returned, and no later stage executes. -/
def runStages (r : Cfg) (worker : Worker) : List StageFn → World → World × GoResult Unit
  | [], w => (w, .ok ())
  | f :: rest, w =>
    match f r worker w with
    | (w1, .ok ()) => runStages r worker rest w1
    | (w1, .err e) => (w1, .err ("failed to execute reconcile function: " ++ e))

/-- r.Status().Update: persist the in-memory worker's status onto the stored
worker object; fallible through the injected flag. -/
def statusUpdate (w : World) (worker : Worker) : World × GoResult Unit :=
  if w.statusUpdateFails then (w, .err "failed to update worker status")
  else
    match storeGet w.workers worker.metadata.ns worker.metadata.name with
    | none => (w, .err "failed to update worker status")
    | some live =>
      let updated := { live with status := worker.status }
      ({ w with workers := storePut w.workers updated
                trace := w.trace ++ [Event.statusWrite worker.metadata.ns worker.metadata.name] },
       .ok ())

/-- The status mutation the entry point performs on its in-memory worker
after all stages succeed (source lines between the stage loop and the
return): set phase Pending, initialize availableCapacity and stamp
lastScheduledTime when availableCapacity was never set, then set phase
Running. -/
def statusMutation (worker : Worker) (now : Nat) : Worker :=
  let worker := { worker with status := { worker.status with phase := workerPending } }
  let worker :=
    if worker.status.availableCapacity = none then
      { worker with status :=
          { worker.status with
            availableCapacity := some worker.spec.capacity
            lastScheduledTime := some now } }
    else worker
  { worker with status := { worker.status with phase := workerRunning } }

/-- The Reconcile entry point: fetch the worker (not-found is swallowed by
client.IgnoreNotFound), run the stage loop, then apply the status mutation
and return — the deferred status update (registered after the stage loop)
runs at that return, and its error is reported only when no prior error
exists, which at that point is always the case. -/
def Reconcile (r : Cfg) (w : World) (req : Key) : ReconcileOut :=
  if w.failWorkerGet then { world := w, err := some "api error" }
  else
    match storeGet w.workers req.ns req.name with
    | none => { world := w, err := none }
    | some worker =>
      match runStages r worker reconcilers w with
      | (w1, .err e) => { world := w1, err := some e }
      | (w1, .ok ()) =>
        match statusUpdate w1 (statusMutation worker w1.now) with
        | (w2, .ok ()) => { world := w2, err := none }
        | (w2, .err e) => { world := w2, err := some e }

/-! ## Derived observations on the pipeline -/

/-- Success condition for reconcileExternal, as a function of the fields of
the world it reads: both secrets present, the kubeconfig data key present,
and none of the remote-side failure injections active. -/
def externalOk (w : World) (worker : Worker) : Bool :=
  (storeGet w.secrets "capz-system" "capz-manager-bootstrap-credentials").isSome &&
  (match storeGet w.secrets worker.metadata.ns (worker.metadata.name ++ "-kubeconfig") with
   | some ks => (ks.data.find? (fun kv => kv.fst == kubeconfigDataName)).isSome
   | none => false) &&
  !w.newClientFails && !w.failRemoteNamespaces && !w.failRemoteSecrets && !w.applyFails

/-- The fixed stage order of the reconcilers slice. -/
def canonicalOrder : List StageId :=
  [StageId.cluster, StageId.kubeadmConfigTemplate, StageId.kubeadmControlPlane,
   StageId.machineTemplate, StageId.machineDeployment, StageId.azureCluster,
   StageId.external]

/-- The stage-start events of a trace, in order. -/
def stageStarts (t : List Event) : List StageId :=
  t.filterMap (fun e => match e with | .stageStart s => some s | _ => none)

/-- The status-write events of a trace, in order. -/
def statusWrites (t : List Event) : List Event :=
  t.filter (fun e => match e with | .statusWrite _ _ => true | _ => false)

/-- How many stages of one pass execute, as a function of the injected
per-kind API failures: the first broken kind stops the pass at its stage
(reconcileExternal, when reached, always executes, whether it fails or not). -/
def executedCount (w : World) : Nat :=
  if w.failClusters then 1
  else if w.failKubeadmConfigTemplates then 2
  else if w.failKubeadmControlPlanes then 3
  else if w.failAzureMachineTemplates then 4
  else if w.failMachineDeployments then 5
  else if w.failAzureClusters then 6
  else 7

/-- Whether some stage of the pass fails. -/
def stagesFailed (w : World) (worker : Worker) : Bool :=
  w.failClusters || w.failKubeadmConfigTemplates || w.failKubeadmControlPlanes ||
  w.failAzureMachineTemplates || w.failMachineDeployments || w.failAzureClusters ||
  !(externalOk w worker)

/-- Frame of one pipeline stage: only the object stores of the world may
change, and the trace grows by exactly the stage's start event. -/
def stepFrame (w w' : World) (sid : StageId) : Prop :=
  w' = { w with
    clusters := w'.clusters
    kubeadmConfigTemplates := w'.kubeadmConfigTemplates
    kubeadmControlPlanes := w'.kubeadmControlPlanes
    azureMachineTemplates := w'.azureMachineTemplates
    machineDeployments := w'.machineDeployments
    azureClusters := w'.azureClusters
    remoteNamespaces := w'.remoteNamespaces
    remoteSecrets := w'.remoteSecrets
    remoteApplied := w'.remoteApplied
    trace := w.trace ++ [Event.stageStart sid] }

/-! ## Concrete fixtures -/

/-- A reconciler configuration with an empty settings map. -/
def cfgEx : Cfg := {}

/-- A concrete worker. -/
def workerEx : Worker :=
  { metadata := { name := "alpha", ns := "default", uid := "w-uid-1" }
    spec := { location := "westus2", replicas := 3, capacity := 10, version := "v1.18.2" } }

/-- A concrete worker with five replicas and a distinctive version. -/
def workerFive : Worker :=
  { metadata := { name := "alpha", ns := "default" }
    spec := { location := "westus2", replicas := 5, capacity := 10, version := "v9.9.9" } }

/-- The operator credential secret at its fixed location, carrying identity
metadata that the remote projection must drop. -/
def secretAzureEx : Secret :=
  { metadata :=
      { name := "capz-manager-bootstrap-credentials"
        ns := "capz-system"
        uid := "s-uid-9"
        resourceVersion := "42"
        labels := [("heritage", "capz")]
        annotations := [("note", "operator")] }
    data := [("creds", "xyz")]
    secretType := "Opaque" }

/-- The generated remote kubeconfig secret for workerEx. -/
def secretKubeconfigEx : Secret :=
  { metadata := { name := "alpha-kubeconfig", ns := "default" }
    data := [("value", "kubeconfig-bytes")] }

/-- A world in which one full pass over workerEx succeeds. -/
def wGood : World :=
  { secrets := [secretAzureEx, secretKubeconfigEx]
    workers := [workerEx]
    now := 1000 }

/-- A live KubeadmControlPlane that differs from the desired template in one
managed field (the version). -/
def liveKCP : KubeadmControlPlane :=
  match getKubeadmControlPlane "alpha" "westus2" [] with
  | .ok t =>
    { t with
      metadata := { t.metadata with ns := "default" }
      spec := { t.spec with version := "v1.0.0" } }
  | .err _ => default

/-- A world in which the KubeadmControlPlane already exists with a drifted
version. -/
def wLiveKCP : World :=
  { wGood with kubeadmControlPlanes := [liveKCP] }

/-- A world in which the NodeTemplate stage's underlying API fails. -/
def wStage4Fail : World :=
  { wGood with failAzureMachineTemplates := true }

/-- A world in which the remote kubeconfig secret does not exist yet. -/
def wNoKubeconfig : World :=
  { wGood with secrets := [secretAzureEx] }

/-- A source secret for the remote projection, rich in identity metadata. -/
def srcSecretEx : Secret :=
  { metadata :=
      { name := "capz-manager-bootstrap-credentials"
        ns := "capz-system"
        uid := "u1"
        resourceVersion := "7"
        labels := [("a", "b")]
        annotations := [("c", "d")]
        ownerReferences := [{ kind := "Operator", name := "op" }] }
    data := [("k", "v")]
    secretType := "Opaque" }

/-! ## Behaviour of the convergence primitive under the source's closures -/

/-- Under the pointer-reassignment closure used by the five plain stages the
primitive creates the desired object when absent, and otherwise persists
nothing: the closure only reassigns the `template` local, so the object read
back through the call-site pointer is still the live object and the no-op
branch is taken. -/
lemma createOrUpdate_reassign {α : Type} [HasMeta α] [Inhabited α] [DecidableEq α]
    (broken : Bool) (s : List α) (t want : α) :
    createOrUpdate broken s ⟨[t, want]⟩ 0
        (fun l h => .ok ({ l with template := l.want }, h)) ⟨0, 1⟩ =
      if broken then .err "api error"
      else
        match storeGet s (HasMeta.meta t).ns (HasMeta.meta t).name with
        | none => .ok (storePut s t, ⟨[t, want]⟩, OpResult.created)
        | some live => .ok (s, ⟨[live, want]⟩, OpResult.noop) := by
  unfold createOrUpdate
  by_cases hb : broken
  · simp [hb]
  · simp only [hb, Bool.false_eq_true, if_false, Heap.get, List.getD, List.get?,
      Option.getD, Heap.set, List.set]
    rcases hsg : storeGet s (HasMeta.meta t).ns (HasMeta.meta t).name with _ | live
    · rfl
    · simp

/-- Same, for the AzureCluster closure: the controller reference lands on
the object pointed to by the `want` local, which the primitive never reads
back; the created object is the unmodified template and the present-object
branch is again a no-op. -/
lemma createOrUpdate_azure (broken : Bool) (s : List AzureCluster)
    (t want : AzureCluster) (worker : Worker) :
    createOrUpdate broken s ⟨[t, want]⟩ 0
        (fun l h =>
          let h := h.set l.want (setControllerReference worker (h.get l.want))
          .ok ({ l with template := l.want }, h)) ⟨0, 1⟩ =
      if broken then .err "api error"
      else
        match storeGet s (HasMeta.meta t).ns (HasMeta.meta t).name with
        | none => .ok (storePut s t, ⟨[t, setControllerReference worker want]⟩, OpResult.created)
        | some live => .ok (s, ⟨[live, setControllerReference worker want]⟩, OpResult.noop) := by
  unfold createOrUpdate
  by_cases hb : broken
  · simp [hb]
  · simp only [hb, Bool.false_eq_true, if_false, Heap.get, List.getD, List.get?,
      Option.getD, Heap.set, List.set]
    rcases hsg : storeGet s (HasMeta.meta t).ns (HasMeta.meta t).name with _ | live
    · rfl
    · simp

/-- Same, for the identity closure used on the remote namespace. -/
lemma createOrUpdate_identity (broken : Bool) (s : List NamespaceObj) (t : NamespaceObj) :
    createOrUpdate broken s ⟨[t]⟩ 0 (fun l h => .ok (l, h)) ⟨0, 0⟩ =
      if broken then .err "api error"
      else
        match storeGet s (HasMeta.meta t).ns (HasMeta.meta t).name with
        | none => .ok (storePut s t, ⟨[t]⟩, OpResult.created)
        | some live => .ok (s, ⟨[live]⟩, OpResult.noop) := by
  unfold createOrUpdate
  by_cases hb : broken
  · simp [hb]
  · simp only [hb, Bool.false_eq_true, if_false, Heap.get, List.getD, List.get?,
      Option.getD, Heap.set, List.set]
    rcases hsg : storeGet s (HasMeta.meta t).ns (HasMeta.meta t).name with _ | live
    · rfl
    · simp

/-! ## Shape of each pipeline stage -/

/-- reconcileCluster obeys the stage frame and fails exactly on its kind's
injected API failure. -/
lemma reconcileCluster_shape (r : Cfg) (worker : Worker) (w : World) :
    stepFrame w (reconcileCluster r worker w).1 StageId.cluster ∧
    ((reconcileCluster r worker w).2 =
      if w.failClusters then GoResult.err "failed to create/update cluster: api error"
      else GoResult.ok ()) := by
  unfold stepFrame
  dsimp only [reconcileCluster, addEvent]
  rw [createOrUpdate_reassign]
  by_cases hb : w.failClusters
  · simp [hb]
  · simp only [hb, Bool.false_eq_true, if_false]
    split
    · rename_i e heq
      split at heq <;> simp_all
    · rename_i s fst snd heq
      split at heq <;> simp_all

/-- reconcileKubeadmConfigTemplate obeys the stage frame and fails exactly
on its kind's injected API failure. -/
lemma reconcileKubeadmConfigTemplate_shape (r : Cfg) (worker : Worker) (w : World) :
    stepFrame w (reconcileKubeadmConfigTemplate r worker w).1 StageId.kubeadmConfigTemplate ∧
    ((reconcileKubeadmConfigTemplate r worker w).2 =
      if w.failKubeadmConfigTemplates then
        GoResult.err "failed to create/update kubeadm config template: api error"
      else GoResult.ok ()) := by
  unfold stepFrame
  dsimp only [reconcileKubeadmConfigTemplate, addEvent, getKubeadmConfigTemplate,
    getCloudProviderConfig]
  rw [createOrUpdate_reassign]
  by_cases hb : w.failKubeadmConfigTemplates
  · simp [hb]
  · simp only [hb, Bool.false_eq_true, if_false]
    split
    · rename_i e heq
      split at heq <;> simp_all
    · rename_i s fst snd heq
      split at heq <;> simp_all

/-- reconcileKubeadmControlPlane obeys the stage frame and fails exactly on
its kind's injected API failure. -/
lemma reconcileKubeadmControlPlane_shape (r : Cfg) (worker : Worker) (w : World) :
    stepFrame w (reconcileKubeadmControlPlane r worker w).1 StageId.kubeadmControlPlane ∧
    ((reconcileKubeadmControlPlane r worker w).2 =
      if w.failKubeadmControlPlanes then
        GoResult.err "failed to create/update kubeadm control plane: api error"
      else GoResult.ok ()) := by
  unfold stepFrame
  dsimp only [reconcileKubeadmControlPlane, addEvent, getKubeadmControlPlane,
    getCloudProviderConfig]
  rw [createOrUpdate_reassign]
  by_cases hb : w.failKubeadmControlPlanes
  · simp [hb]
  · simp only [hb, Bool.false_eq_true, if_false]
    split
    · rename_i e heq
      split at heq <;> simp_all
    · rename_i s fst snd heq
      split at heq <;> simp_all

/-- reconcileMachineTemplate obeys the stage frame and fails exactly on its
kind's injected API failure. -/
lemma reconcileMachineTemplate_shape (r : Cfg) (worker : Worker) (w : World) :
    stepFrame w (reconcileMachineTemplate r worker w).1 StageId.machineTemplate ∧
    ((reconcileMachineTemplate r worker w).2 =
      if w.failAzureMachineTemplates then
        GoResult.err "failed to create/update machine template: api error"
      else GoResult.ok ()) := by
  unfold stepFrame
  dsimp only [reconcileMachineTemplate, addEvent]
  rw [createOrUpdate_reassign]
  by_cases hb : w.failAzureMachineTemplates
  · simp [hb]
  · simp only [hb, Bool.false_eq_true, if_false]
    split
    · rename_i e heq
      split at heq <;> simp_all
    · rename_i s fst snd heq
      split at heq <;> simp_all

/-- reconcileMachineDeployment obeys the stage frame and fails exactly on
its kind's injected API failure. -/
lemma reconcileMachineDeployment_shape (r : Cfg) (worker : Worker) (w : World) :
    stepFrame w (reconcileMachineDeployment r worker w).1 StageId.machineDeployment ∧
    ((reconcileMachineDeployment r worker w).2 =
      if w.failMachineDeployments then
        GoResult.err "failed to create/update machine deployment: api error"
      else GoResult.ok ()) := by
  unfold stepFrame
  dsimp only [reconcileMachineDeployment, addEvent]
  rw [createOrUpdate_reassign]
  by_cases hb : w.failMachineDeployments
  · simp [hb]
  · simp only [hb, Bool.false_eq_true, if_false]
    split
    · rename_i e heq
      split at heq <;> simp_all
    · rename_i s fst snd heq
      split at heq <;> simp_all

/-- reconcileAzureCluster obeys the stage frame and fails exactly on its
kind's injected API failure. -/
lemma reconcileAzureCluster_shape (r : Cfg) (worker : Worker) (w : World) :
    stepFrame w (reconcileAzureCluster r worker w).1 StageId.azureCluster ∧
    ((reconcileAzureCluster r worker w).2 =
      if w.failAzureClusters then
        GoResult.err "failed to create/update azure cluster: api error"
      else GoResult.ok ()) := by
  unfold stepFrame
  dsimp only [reconcileAzureCluster, addEvent]
  rw [createOrUpdate_azure]
  by_cases hb : w.failAzureClusters
  · simp [hb]
  · simp only [hb, Bool.false_eq_true, if_false]
    split
    · rename_i e heq
      split at heq <;> simp_all
    · rename_i s fst snd heq
      split at heq <;> simp_all

/-- reconcileExternal obeys the stage frame and succeeds exactly when
externalOk holds of the world it starts from. -/
lemma reconcileExternal_shape (r : Cfg) (worker : Worker) (w : World) :
    stepFrame w (reconcileExternal r worker w).1 StageId.external ∧
    ((reconcileExternal r worker w).2 = GoResult.ok () ↔ externalOk w worker = true) := by
  unfold stepFrame externalOk
  dsimp only [reconcileExternal, addEvent, newRemoteClient]
  rcases h1 : storeGet w.secrets "capz-system" "capz-manager-bootstrap-credentials"
      with _ | azureSecret
  · simp [h1]
  rcases h2 : storeGet w.secrets worker.metadata.ns (worker.metadata.name ++ "-kubeconfig")
      with _ | kubeconfigSecret
  · simp [h1, h2]
  rcases h3 : kubeconfigSecret.data.find? (fun kv => kv.fst == kubeconfigDataName)
      with _ | data
  · simp [h1, h2, h3]
  by_cases h4 : w.newClientFails
  · simp [h1, h2, h3, h4]
  simp only [h1, h2, h3, h4, Bool.false_eq_true, if_false, Option.isSome_some, Bool.not_false]
  rw [createOrUpdate_identity]
  by_cases h5 : w.failRemoteNamespaces
  · simp [h5]
  simp only [h5, Bool.false_eq_true, if_false]
  split
  · rename_i e heq
    split at heq <;> simp_all
  rename_i rns fst1 snd1 heq1
  rw [createOrUpdate_reassign]
  by_cases h6 : w.failRemoteSecrets
  · simp [h6]
  simp only [h6, Bool.false_eq_true, if_false]
  split
  · rename_i e heq2
    split at heq2 <;> simp_all
  rename_i rsecs fst2 snd2 heq2
  by_cases h7 : w.applyFails
  · simp only [h7, if_true]
    constructor
    · split at heq1 <;> split at heq2 <;> simp_all
    · simp
  · simp only [h7, Bool.false_eq_true, if_false]
    constructor
    · split at heq1 <;> split at heq2 <;> simp_all
    · simp

/-- Projections preserved by the stage frame. -/
lemma stepFrame_pres {w w' : World} {sid : StageId} (h : stepFrame w w' sid) :
    w'.trace = w.trace ++ [Event.stageStart sid] ∧
    w'.secrets = w.secrets ∧ w'.workers = w.workers ∧ w'.now = w.now ∧
    w'.failClusters = w.failClusters ∧
    w'.failKubeadmConfigTemplates = w.failKubeadmConfigTemplates ∧
    w'.failKubeadmControlPlanes = w.failKubeadmControlPlanes ∧
    w'.failAzureMachineTemplates = w.failAzureMachineTemplates ∧
    w'.failMachineDeployments = w.failMachineDeployments ∧
    w'.failAzureClusters = w.failAzureClusters ∧
    w'.statusUpdateFails = w.statusUpdateFails := by
  have he : w' = _ := h
  refine ⟨?_, ?_, ?_, ?_, ?_, ?_, ?_, ?_, ?_, ?_, ?_⟩ <;> (rw [he]; try rfl)

/-- The stage frame preserves the success condition of the external stage. -/
lemma stepFrame_externalOk {w w' : World} {sid : StageId} (worker : Worker)
    (h : stepFrame w w' sid) : externalOk w' worker = externalOk w worker := by
  rw [stepFrame] at h
  rw [h]
  rfl

/-- One pass of the stage loop: the trace grows by the canonical stage-order
prefix of length executedCount, the worker store, secrets, clock and
status-update flag are untouched, and the loop succeeds exactly when no
stage fails. -/
lemma runStages_main (r : Cfg) (worker : Worker) (w : World) :
    (runStages r worker reconcilers w).1.trace =
        w.trace ++ (canonicalOrder.take (executedCount w)).map Event.stageStart ∧
    (runStages r worker reconcilers w).1.workers = w.workers ∧
    (runStages r worker reconcilers w).1.secrets = w.secrets ∧
    (runStages r worker reconcilers w).1.now = w.now ∧
    (runStages r worker reconcilers w).1.statusUpdateFails = w.statusUpdateFails ∧
    ((runStages r worker reconcilers w).2 = GoResult.ok () ↔ stagesFailed w worker = false) := by
  rcases hs1 : reconcileCluster r worker w with ⟨w1, res1⟩
  have hsh1 := reconcileCluster_shape r worker w
  rw [hs1] at hsh1
  have hf1 : stepFrame w w1 StageId.cluster := hsh1.1
  have hr1 : res1 = (if w.failClusters then
      GoResult.err "failed to create/update cluster: api error" else GoResult.ok ()) := hsh1.2
  obtain ⟨ht1, hsec1, hwk1, hnow1, hc1, hk1, hp1, ha1, hm1, haz1, hsu1⟩ := stepFrame_pres hf1
  have hx1 : externalOk w1 worker = externalOk w worker := stepFrame_externalOk worker hf1
  simp only [reconcilers, runStages, hs1]
  by_cases hb1 : w.failClusters
  · rw [if_pos hb1] at hr1
    subst hr1
    refine ⟨?_, ?_, ?_, ?_, ?_, ?_⟩ <;>
      simp [executedCount, stagesFailed, canonicalOrder, hb1, ht1, hsec1, hwk1, hnow1, hsu1]
  rw [if_neg hb1] at hr1
  subst hr1
  rcases hs2 : reconcileKubeadmConfigTemplate r worker w1 with ⟨w2, res2⟩
  have hsh2 := reconcileKubeadmConfigTemplate_shape r worker w1
  rw [hs2] at hsh2
  have hf2 : stepFrame w1 w2 StageId.kubeadmConfigTemplate := hsh2.1
  have hr2 : res2 = (if w1.failKubeadmConfigTemplates then
      GoResult.err "failed to create/update kubeadm config template: api error"
      else GoResult.ok ()) := hsh2.2
  obtain ⟨ht2, hsec2, hwk2, hnow2, hc2, hk2, hp2, ha2, hm2, haz2, hsu2⟩ := stepFrame_pres hf2
  have hx2 : externalOk w2 worker = externalOk w1 worker := stepFrame_externalOk worker hf2
  rw [hk1] at hr2
  simp only [hs2]
  by_cases hb2 : w.failKubeadmConfigTemplates
  · rw [if_pos hb2] at hr2
    subst hr2
    refine ⟨?_, ?_, ?_, ?_, ?_, ?_⟩ <;>
      simp [executedCount, stagesFailed, canonicalOrder, hb1, hb2, ht1, ht2, hsec1, hsec2,
        hwk1, hwk2, hnow1, hnow2, hsu1, hsu2]
  rw [if_neg hb2] at hr2
  subst hr2
  rcases hs3 : reconcileKubeadmControlPlane r worker w2 with ⟨w3, res3⟩
  have hsh3 := reconcileKubeadmControlPlane_shape r worker w2
  rw [hs3] at hsh3
  have hf3 : stepFrame w2 w3 StageId.kubeadmControlPlane := hsh3.1
  have hr3 : res3 = (if w2.failKubeadmControlPlanes then
      GoResult.err "failed to create/update kubeadm control plane: api error"
      else GoResult.ok ()) := hsh3.2
  obtain ⟨ht3, hsec3, hwk3, hnow3, hc3, hk3, hp3, ha3, hm3, haz3, hsu3⟩ := stepFrame_pres hf3
  have hx3 : externalOk w3 worker = externalOk w2 worker := stepFrame_externalOk worker hf3
  rw [hp2, hp1] at hr3
  simp only [hs3]
  by_cases hb3 : w.failKubeadmControlPlanes
  · rw [if_pos hb3] at hr3
    subst hr3
    refine ⟨?_, ?_, ?_, ?_, ?_, ?_⟩ <;>
      simp [executedCount, stagesFailed, canonicalOrder, hb1, hb2, hb3, ht1, ht2, ht3,
        hsec1, hsec2, hsec3, hwk1, hwk2, hwk3, hnow1, hnow2, hnow3, hsu1, hsu2, hsu3]
  rw [if_neg hb3] at hr3
  subst hr3
  rcases hs4 : reconcileMachineTemplate r worker w3 with ⟨w4, res4⟩
  have hsh4 := reconcileMachineTemplate_shape r worker w3
  rw [hs4] at hsh4
  have hf4 : stepFrame w3 w4 StageId.machineTemplate := hsh4.1
  have hr4 : res4 = (if w3.failAzureMachineTemplates then
      GoResult.err "failed to create/update machine template: api error"
      else GoResult.ok ()) := hsh4.2
  obtain ⟨ht4, hsec4, hwk4, hnow4, hc4, hk4, hp4, ha4, hm4, haz4, hsu4⟩ := stepFrame_pres hf4
  have hx4 : externalOk w4 worker = externalOk w3 worker := stepFrame_externalOk worker hf4
  rw [ha3, ha2, ha1] at hr4
  simp only [hs4]
  by_cases hb4 : w.failAzureMachineTemplates
  · rw [if_pos hb4] at hr4
    subst hr4
    refine ⟨?_, ?_, ?_, ?_, ?_, ?_⟩ <;>
      simp [executedCount, stagesFailed, canonicalOrder, hb1, hb2, hb3, hb4, ht1, ht2, ht3,
        ht4, hsec1, hsec2, hsec3, hsec4, hwk1, hwk2, hwk3, hwk4, hnow1, hnow2, hnow3, hnow4,
        hsu1, hsu2, hsu3, hsu4]
  rw [if_neg hb4] at hr4
  subst hr4
  rcases hs5 : reconcileMachineDeployment r worker w4 with ⟨w5, res5⟩
  have hsh5 := reconcileMachineDeployment_shape r worker w4
  rw [hs5] at hsh5
  have hf5 : stepFrame w4 w5 StageId.machineDeployment := hsh5.1
  have hr5 : res5 = (if w4.failMachineDeployments then
      GoResult.err "failed to create/update machine deployment: api error"
      else GoResult.ok ()) := hsh5.2
  obtain ⟨ht5, hsec5, hwk5, hnow5, hc5, hk5, hp5, ha5, hm5, haz5, hsu5⟩ := stepFrame_pres hf5
  have hx5 : externalOk w5 worker = externalOk w4 worker := stepFrame_externalOk worker hf5
  rw [hm4, hm3, hm2, hm1] at hr5
  simp only [hs5]
  by_cases hb5 : w.failMachineDeployments
  · rw [if_pos hb5] at hr5
    subst hr5
    refine ⟨?_, ?_, ?_, ?_, ?_, ?_⟩ <;>
      simp [executedCount, stagesFailed, canonicalOrder, hb1, hb2, hb3, hb4, hb5, ht1, ht2,
        ht3, ht4, ht5, hsec1, hsec2, hsec3, hsec4, hsec5, hwk1, hwk2, hwk3, hwk4, hwk5,
        hnow1, hnow2, hnow3, hnow4, hnow5, hsu1, hsu2, hsu3, hsu4, hsu5]
  rw [if_neg hb5] at hr5
  subst hr5
  rcases hs6 : reconcileAzureCluster r worker w5 with ⟨w6, res6⟩
  have hsh6 := reconcileAzureCluster_shape r worker w5
  rw [hs6] at hsh6
  have hf6 : stepFrame w5 w6 StageId.azureCluster := hsh6.1
  have hr6 : res6 = (if w5.failAzureClusters then
      GoResult.err "failed to create/update azure cluster: api error"
      else GoResult.ok ()) := hsh6.2
  obtain ⟨ht6, hsec6, hwk6, hnow6, hc6, hk6, hp6, ha6, hm6, haz6, hsu6⟩ := stepFrame_pres hf6
  have hx6 : externalOk w6 worker = externalOk w5 worker := stepFrame_externalOk worker hf6
  rw [haz5, haz4, haz3, haz2, haz1] at hr6
  simp only [hs6]
  by_cases hb6 : w.failAzureClusters
  · rw [if_pos hb6] at hr6
    subst hr6
    refine ⟨?_, ?_, ?_, ?_, ?_, ?_⟩ <;>
      simp [executedCount, stagesFailed, canonicalOrder, hb1, hb2, hb3, hb4, hb5, hb6,
        ht1, ht2, ht3, ht4, ht5, ht6, hsec1, hsec2, hsec3, hsec4, hsec5, hsec6,
        hwk1, hwk2, hwk3, hwk4, hwk5, hwk6, hnow1, hnow2, hnow3, hnow4, hnow5, hnow6,
        hsu1, hsu2, hsu3, hsu4, hsu5, hsu6]
  rw [if_neg hb6] at hr6
  subst hr6
  rcases hs7 : reconcileExternal r worker w6 with ⟨w7, res7⟩
  have hsh7 := reconcileExternal_shape r worker w6
  rw [hs7] at hsh7
  have hf7 : stepFrame w6 w7 StageId.external := hsh7.1
  have hiff : res7 = GoResult.ok () ↔ externalOk w worker = true := by
    rw [hsh7.2, hx6, hx5, hx4, hx3, hx2, hx1]
  obtain ⟨ht7, hsec7, hwk7, hnow7, hc7, hk7, hp7, ha7, hm7, haz7, hsu7⟩ := stepFrame_pres hf7
  simp only [hs7]
  rcases res7 with _ | e
  · have hext : externalOk w worker = true := hiff.mp rfl
    refine ⟨?_, ?_, ?_, ?_, ?_, ?_⟩ <;>
      simp [executedCount, stagesFailed, canonicalOrder, hb1, hb2, hb3, hb4, hb5, hb6, hext,
        ht1, ht2, ht3, ht4, ht5, ht6, ht7, hsec1, hsec2, hsec3, hsec4, hsec5, hsec6, hsec7,
        hwk1, hwk2, hwk3, hwk4, hwk5, hwk6, hwk7, hnow1, hnow2, hnow3, hnow4, hnow5, hnow6,
        hnow7, hsu1, hsu2, hsu3, hsu4, hsu5, hsu6, hsu7]
  · have hext : externalOk w worker = false := by
      rcases hext0 : externalOk w worker with _ | _
      · rfl
      · exact absurd (hiff.mpr hext0) (by simp)
    refine ⟨?_, ?_, ?_, ?_, ?_, ?_⟩ <;>
      simp [executedCount, stagesFailed, canonicalOrder, hb1, hb2, hb3, hb4, hb5, hb6, hext,
        ht1, ht2, ht3, ht4, ht5, ht6, ht7, hsec1, hsec2, hsec3, hsec4, hsec5, hsec6, hsec7,
        hwk1, hwk2, hwk3, hwk4, hwk5, hwk6, hwk7, hnow1, hnow2, hnow3, hnow4, hnow5, hnow6,
        hnow7, hsu1, hsu2, hsu3, hsu4, hsu5, hsu6, hsu7]

/-- Splitting stage starts over trace concatenation. -/
lemma stageStarts_append (a b : List Event) :
    stageStarts (a ++ b) = stageStarts a ++ stageStarts b := by
  simp [stageStarts, List.filterMap_append]

/-- Stage-start events project back to their stage ids. -/
lemma stageStarts_map_stageStart (l : List StageId) :
    stageStarts (l.map Event.stageStart) = l := by
  induction l with
  | nil => rfl
  | cons a l ih => simp [stageStarts] at ih ⊢; exact ih

/-- A trace of stage starts contains no status writes. -/
lemma statusWrites_map_stageStart (l : List StageId) :
    statusWrites (l.map Event.stageStart) = [] := by
  induction l with
  | nil => rfl
  | cons a l ih => simp [statusWrites] at ih ⊢

/-- Splitting status writes over trace concatenation. -/
lemma statusWrites_append (a b : List Event) :
    statusWrites (a ++ b) = statusWrites a ++ statusWrites b := by
  simp [statusWrites, List.filter_append]

/-- The status update leaves the stage-start history unchanged. -/
lemma statusUpdate_stageStarts (w : World) (wk : Worker) :
    stageStarts (statusUpdate w wk).1.trace = stageStarts w.trace := by
  unfold statusUpdate
  by_cases hb : w.statusUpdateFails
  · simp [hb]
  · simp only [hb, Bool.false_eq_true, if_false]
    split
    · simp
    · simp [stageStarts, List.filterMap_append]

/-- When the status write is injected to fail, it changes nothing and
reports its error. -/
lemma statusUpdate_fail (w : World) (wk : Worker) (hb : w.statusUpdateFails = true) :
    statusUpdate w wk = (w, GoResult.err "failed to update worker status") := by
  simp [statusUpdate, hb]

/-- An object found under a key carries that key in its metadata. -/
lemma storeGet_meta {α : Type} [HasMeta α] {s : List α} {ns name : String} {o : α}
    (h : storeGet s ns name = some o) :
    (HasMeta.meta o).ns = ns ∧ (HasMeta.meta o).name = name := by
  have hp := List.find?_some h
  simp only [Bool.and_eq_true, beq_iff_eq] at hp
  exact hp

/-- Reading back what storePut wrote. -/
lemma storeGet_storePut_self {α : Type} [HasMeta α] (s : List α) (o : α) :
    storeGet (storePut s o) (HasMeta.meta o).ns (HasMeta.meta o).name = some o := by
  simp [storeGet, storePut, List.find?_cons]

/-- What the entry point's status mutation does to the in-memory worker. -/
lemma statusMutation_spec (wk : Worker) (now : Nat) :
    (statusMutation wk now).metadata = wk.metadata ∧
    (statusMutation wk now).status.phase = workerRunning ∧
    (wk.status.availableCapacity = none →
      (statusMutation wk now).status.availableCapacity = some wk.spec.capacity ∧
      (statusMutation wk now).status.lastScheduledTime = some now) ∧
    (∀ c, wk.status.availableCapacity = some c →
      (statusMutation wk now).status.availableCapacity = some c ∧
      (statusMutation wk now).status.lastScheduledTime = wk.status.lastScheduledTime) := by
  by_cases hac : wk.status.availableCapacity = none
  · simp [statusMutation, hac, workerRunning]
  · obtain ⟨c0, hc0⟩ : ∃ c, wk.status.availableCapacity = some c := by
      rcases h0 : wk.status.availableCapacity with _ | c
      · exact absurd h0 hac
      · exact ⟨c, rfl⟩
    simp [statusMutation, hc0, workerRunning]

/-! ## Claim theorems -/

set_option maxRecDepth 10000

/-- C7: for every worker name, location and settings map, the cloud-provider
payload embedded as file content in the ControlPlane template and the one
embedded in the BootstrapConfigTemplate are byte-identical strings (both are
the marshalled cloud-provider configuration). -/
theorem cloud_config_payloads_identical (name loc : String)
    (settings : List (String × String)) :
    ∃ d kcp kct,
      getCloudProviderConfig name loc settings = GoResult.ok d ∧
      getKubeadmControlPlane name loc settings = GoResult.ok kcp ∧
      getKubeadmConfigTemplate name loc settings = GoResult.ok kct ∧
      kcp.spec.kubeadmConfigSpec.files.map File.content = [d] ∧
      kct.spec.template.spec.files.map File.content = [d] :=
  ⟨_, _, _, rfl, rfl, rfl, rfl, rfl⟩

/-- C9: the NetworkCluster template builder's output does not depend on its
location and settings arguments; only the worker name matters. -/
theorem network_cluster_independent_of_location_settings (name l1 l2 : String)
    (s1 s2 : List (String × String)) :
    getCluster name l1 s1 = getCluster name l2 s2 :=
  rfl

/-- C4 counterexample: for a worker with replicas 5 and version v9.9.9 the
ControlPlane builder still produces replica count 1 and version v1.17.4, so
the claim that it consumes the worker's replicas and version is false. -/
theorem control_plane_ignores_worker_replicas_version :
    workerFive.spec.replicas = 5 ∧ workerFive.spec.version = "v9.9.9" ∧
    (getKubeadmControlPlane workerFive.metadata.name workerFive.spec.location
        cfgEx.azureSettings).toOption.map
      (fun t => (t.spec.replicas, t.spec.version)) = some (some 1, "v1.17.4") ∧
    ((some (1 : Int), "v1.17.4") ≠
      (some workerFive.spec.replicas, workerFive.spec.version)) := by
  refine ⟨rfl, rfl, rfl, by decide⟩

/-- C4 amended: the worker's replicas and version are consumed by the
NodePool (MachineDeployment) builder as its replica count and machine
version, while the ControlPlane builder hardcodes replica count 1 and
version v1.17.4 for every input. -/
theorem worker_replicas_version_consumed_by_node_pool (worker : Worker)
    (name loc : String) (settings : List (String × String)) :
    (getMachineDeployment worker).spec.replicas = some worker.spec.replicas ∧
    (getMachineDeployment worker).spec.template.spec.version = some worker.spec.version ∧
    (getKubeadmControlPlane name loc settings).toOption.map
      (fun t => (t.spec.replicas, t.spec.version)) = some (some 1, "v1.17.4") :=
  ⟨rfl, rfl, rfl⟩

/-- C8: the credential secret projected into the remote cluster copies only
the source secret's name, namespace and data payload; owner references,
unique id, resource version, labels, annotations and type are all left at
their zero values. -/
theorem remote_secret_projection_minimal (src : Secret)
    (h1 : src.metadata.ns = "capz-system")
    (h2 : src.metadata.name = "capz-manager-bootstrap-credentials") :
    (projectedRemoteSecret src).metadata.name = src.metadata.name ∧
    (projectedRemoteSecret src).metadata.ns = src.metadata.ns ∧
    (projectedRemoteSecret src).data = src.data ∧
    (projectedRemoteSecret src).metadata.uid = "" ∧
    (projectedRemoteSecret src).metadata.resourceVersion = "" ∧
    (projectedRemoteSecret src).metadata.labels = [] ∧
    (projectedRemoteSecret src).metadata.annotations = [] ∧
    (projectedRemoteSecret src).metadata.ownerReferences = [] ∧
    (projectedRemoteSecret src).secretType = "" := by
  refine ⟨?_, ?_, rfl, rfl, rfl, rfl, rfl, rfl, rfl⟩
  · rw [h2]; rfl
  · rw [h1]; rfl

/-- C8 witness: the projection applied to a source secret rich in identity
metadata. -/
theorem remote_secret_projection_minimal_witness :
    srcSecretEx.metadata.ns = "capz-system" ∧
    srcSecretEx.metadata.name = "capz-manager-bootstrap-credentials" ∧
    ((projectedRemoteSecret srcSecretEx).metadata.name = srcSecretEx.metadata.name ∧
     (projectedRemoteSecret srcSecretEx).metadata.ns = srcSecretEx.metadata.ns ∧
     (projectedRemoteSecret srcSecretEx).data = srcSecretEx.data ∧
     (projectedRemoteSecret srcSecretEx).metadata.uid = "" ∧
     (projectedRemoteSecret srcSecretEx).metadata.resourceVersion = "" ∧
     (projectedRemoteSecret srcSecretEx).metadata.labels = [] ∧
     (projectedRemoteSecret srcSecretEx).metadata.annotations = [] ∧
     (projectedRemoteSecret srcSecretEx).metadata.ownerReferences = [] ∧
     (projectedRemoteSecret srcSecretEx).secretType = "") :=
  ⟨rfl, rfl, remote_secret_projection_minimal srcSecretEx rfl rfl⟩

/-- C1 (code evaluated at the failing input): with a live KubeadmControlPlane
whose version drifted to v1.0.0, one convergence call reports success and
persists nothing — the store still holds the drifted object rather than the
desired one, because the mutation closure only reassigns a local pointer
variable. -/
theorem convergence_keeps_live_object_at_failing_input :
    liveKCP.spec.version = "v1.0.0" ∧
    (getKubeadmControlPlane "alpha" "westus2" []).toOption.map
      (fun t => t.spec.version) = some "v1.17.4" ∧
    (reconcileKubeadmControlPlane cfgEx workerEx wLiveKCP).2 = GoResult.ok () ∧
    (reconcileKubeadmControlPlane cfgEx workerEx wLiveKCP).1.kubeadmControlPlanes =
      [liveKCP] := by
  refine ⟨by decide, rfl, by decide, by decide⟩

/-- C2 (code evaluated at the failing input): a full pipeline pass over a
fresh worker succeeds, yet the persisted AzureCluster carries no owner
reference — SetControllerReference ran inside the mutation closure but on
the discarded deep copy, as the last conjunct shows. -/
theorem fresh_pass_infra_cluster_missing_owner_reference :
    (Reconcile cfgEx wGood ⟨"default", "alpha"⟩).err = none ∧
    (storeGet (Reconcile cfgEx wGood ⟨"default", "alpha"⟩).world.azureClusters
        "default" "alpha").map (fun a => a.metadata.ownerReferences) = some [] ∧
    (setControllerReference workerEx
        (getAzureCluster "alpha" "westus2")).metadata.ownerReferences =
      [ownerReferenceFor workerEx] := by
  refine ⟨by decide, by decide, rfl⟩

/-- C10: when the requested worker does not exist the entry point returns a
nil error and the empty result without touching the world (no stage runs, no
status write); any other fetch error is returned to the caller. -/
theorem missing_worker_returns_clean (r : Cfg) (w : World) (req : Key)
    (hn : storeGet w.workers req.ns req.name = none) :
    (w.failWorkerGet = false →
      Reconcile r w req = { world := w, result := {}, err := none }) ∧
    (w.failWorkerGet = true →
      (Reconcile r w req).world = w ∧ (Reconcile r w req).err = some "api error") := by
  constructor
  · intro hg
    simp only [Reconcile, hg, Bool.false_eq_true, if_false, hn]
  · intro hg
    simp [Reconcile, hg]

/-- C10 witness: an empty world at a concrete request key. -/
theorem missing_worker_returns_clean_witness :
    storeGet ({} : World).workers "default" "alpha" = none ∧
    ({} : World).failWorkerGet = false ∧
    Reconcile cfgEx {} ⟨"default", "alpha"⟩ = { world := {}, result := {}, err := none } :=
  ⟨rfl, rfl, (missing_worker_returns_clean cfgEx {} ⟨"default", "alpha"⟩ rfl).1 rfl⟩

/-- C3 counterexample: a pass whose external stage fails (kubeconfig secret
absent) returns the stage error and performs no status write at all — the
trace holds no status-write event and the worker store is untouched, so the
status update is not executed on exit after a stage error. -/
theorem stage_error_skips_status_update :
    (Reconcile cfgEx wNoKubeconfig ⟨"default", "alpha"⟩).err =
      some "failed to execute reconcile function: failed to get remote kubeconfig to apply to cluster" ∧
    statusWrites (Reconcile cfgEx wNoKubeconfig ⟨"default", "alpha"⟩).world.trace = [] ∧
    (Reconcile cfgEx wNoKubeconfig ⟨"default", "alpha"⟩).world.workers =
      wNoKubeconfig.workers := by
  refine ⟨by decide, by decide, by decide⟩

/-- C3 amended: the status update executes only on passes in which every
pipeline stage succeeded — a stage error is returned as-is with no status
write performed (so a stage error and a persistence error can never occur in
the same pass), and when the update does run and fails, its error is the one
returned. -/
theorem status_update_only_after_stage_success (r : Cfg) (w : World) (req : Key)
    (worker : Worker)
    (hg : w.failWorkerGet = false)
    (hw : storeGet w.workers req.ns req.name = some worker) :
    (∀ e, (runStages r worker reconcilers w).2 = GoResult.err e →
      (Reconcile r w req).err = some e ∧
      statusWrites (Reconcile r w req).world.trace = statusWrites w.trace ∧
      (Reconcile r w req).world.workers = w.workers) ∧
    ((runStages r worker reconcilers w).2 = GoResult.ok () →
      w.statusUpdateFails = true →
      (Reconcile r w req).err = some "failed to update worker status") := by
  have hmain := runStages_main r worker w
  rcases hrs : runStages r worker reconcilers w with ⟨w1, sres⟩
  rw [hrs] at hmain
  obtain ⟨htr, hwk, hsec, hnow, hsu, hiff⟩ := hmain
  constructor
  · intro e he
    have hse : sres = GoResult.err e := he
    subst hse
    simp only [Reconcile, hg, Bool.false_eq_true, if_false, hw, hrs]
    refine ⟨by trivial, ?_, by exact hwk⟩
    rw [htr, statusWrites_append, statusWrites_map_stageStart, List.append_nil]
  · intro hok hfail
    have hse : sres = GoResult.ok () := hok
    subst hse
    simp only [Reconcile, hg, Bool.false_eq_true, if_false, hw, hrs]
    rw [statusUpdate_fail w1 _ (by rw [hsu]; exact hfail)]

/-- C3 witness: the amended behaviour at the kubeconfig-missing world. -/
theorem status_update_only_after_stage_success_witness :
    (runStages cfgEx workerEx reconcilers wNoKubeconfig).2 =
      GoResult.err "failed to execute reconcile function: failed to get remote kubeconfig to apply to cluster" ∧
    ((Reconcile cfgEx wNoKubeconfig ⟨"default", "alpha"⟩).err =
       some "failed to execute reconcile function: failed to get remote kubeconfig to apply to cluster" ∧
     statusWrites (Reconcile cfgEx wNoKubeconfig ⟨"default", "alpha"⟩).world.trace =
       statusWrites wNoKubeconfig.trace ∧
     (Reconcile cfgEx wNoKubeconfig ⟨"default", "alpha"⟩).world.workers =
       wNoKubeconfig.workers) :=
  ⟨by decide,
   (status_update_only_after_stage_success cfgEx wNoKubeconfig ⟨"default", "alpha"⟩ workerEx
       rfl (by decide)).1 _ (by decide)⟩

/-- C5: stages execute in the fixed order Cluster, KubeadmConfigTemplate,
KubeadmControlPlane, AzureMachineTemplate, MachineDeployment, AzureCluster,
external — the executed stages are always the canonical-order prefix cut at
the first failure — and when any stage fails an error is returned, no later
stage executes, and no partial-success checkpoint is kept (no status write,
worker store untouched). -/
theorem pipeline_order_and_abort (r : Cfg) (w : World) (req : Key) (worker : Worker)
    (hg : w.failWorkerGet = false)
    (hw : storeGet w.workers req.ns req.name = some worker) :
    stageStarts (Reconcile r w req).world.trace =
      stageStarts w.trace ++ canonicalOrder.take (executedCount w) ∧
    (stagesFailed w worker = true →
      (∃ e, (Reconcile r w req).err = some e) ∧
      (Reconcile r w req).world.workers = w.workers ∧
      statusWrites (Reconcile r w req).world.trace = statusWrites w.trace) := by
  have hmain := runStages_main r worker w
  rcases hrs : runStages r worker reconcilers w with ⟨w1, sres⟩
  rw [hrs] at hmain
  obtain ⟨htr, hwk, hsec, hnow, hsu, hiff⟩ := hmain
  rcases sres with _ | e
  · have hsf : stagesFailed w worker = false := hiff.mp rfl
    rcases hsu2 : statusUpdate w1 (statusMutation worker w1.now) with ⟨w2, us⟩
    have hss2 := statusUpdate_stageStarts w1 (statusMutation worker w1.now)
    rw [hsu2] at hss2
    simp only [Reconcile, hg, Bool.false_eq_true, if_false, hw, hrs, hsu2]
    constructor
    · rcases us with _ | e2 <;>
        (dsimp only; rw [hss2, htr, stageStarts_append, stageStarts_map_stageStart])
    · intro hcontra
      rw [hsf] at hcontra
      simp at hcontra
  · simp only [Reconcile, hg, Bool.false_eq_true, if_false, hw, hrs]
    constructor
    · rw [htr, stageStarts_append, stageStarts_map_stageStart]
    · intro _
      refine ⟨⟨e, rfl⟩, hwk, ?_⟩
      rw [htr, statusWrites_append, statusWrites_map_stageStart, List.append_nil]

/-- C5 witness: with the NodeTemplate kind's API broken, exactly the first
four stages execute and the pass aborts with an error and no status write. -/
theorem pipeline_order_and_abort_witness :
    stageStarts (Reconcile cfgEx wStage4Fail ⟨"default", "alpha"⟩).world.trace =
      stageStarts wStage4Fail.trace ++ canonicalOrder.take (executedCount wStage4Fail) ∧
    ((∃ e, (Reconcile cfgEx wStage4Fail ⟨"default", "alpha"⟩).err = some e) ∧
     (Reconcile cfgEx wStage4Fail ⟨"default", "alpha"⟩).world.workers = wStage4Fail.workers ∧
     statusWrites (Reconcile cfgEx wStage4Fail ⟨"default", "alpha"⟩).world.trace =
       statusWrites wStage4Fail.trace) :=
  ⟨(pipeline_order_and_abort cfgEx wStage4Fail ⟨"default", "alpha"⟩ workerEx rfl (by decide)).1,
   (pipeline_order_and_abort cfgEx wStage4Fail ⟨"default", "alpha"⟩ workerEx rfl (by decide)).2
     (by decide)⟩

/-- C6: after a pass in which all stages succeed and the status write goes
through, the persisted worker's phase is Running; when availableCapacity had
never been set it is initialized to the declared capacity with
lastScheduledTime stamped to the pass's clock, and when it was already set
both it and lastScheduledTime are unchanged. -/
theorem capacity_initialization (r : Cfg) (w : World) (req : Key) (worker : Worker)
    (hg : w.failWorkerGet = false)
    (hw : storeGet w.workers req.ns req.name = some worker)
    (hs : (runStages r worker reconcilers w).2 = GoResult.ok ())
    (hu : w.statusUpdateFails = false) :
    (Reconcile r w req).err = none ∧
    ∃ wk, storeGet (Reconcile r w req).world.workers req.ns req.name = some wk ∧
      wk.status.phase = workerRunning ∧
      (worker.status.availableCapacity = none →
        wk.status.availableCapacity = some worker.spec.capacity ∧
        wk.status.lastScheduledTime = some w.now) ∧
      (∀ c, worker.status.availableCapacity = some c →
        wk.status.availableCapacity = some c ∧
        wk.status.lastScheduledTime = worker.status.lastScheduledTime) := by
  have hmain := runStages_main r worker w
  rcases hrs : runStages r worker reconcilers w with ⟨w1, sres⟩
  rw [hrs] at hmain
  obtain ⟨htr, hwkeq, hsec, hnow, hsueq, hiff⟩ := hmain
  rw [hrs] at hs
  have hse : sres = GoResult.ok () := hs
  subst hse
  obtain ⟨hmeta, hphase, hinitCap, hkeepCap⟩ := statusMutation_spec worker w1.now
  have hns : worker.metadata.ns = req.ns := (storeGet_meta hw).1
  have hname : worker.metadata.name = req.name := (storeGet_meta hw).2
  have hlive : storeGet w1.workers (statusMutation worker w1.now).metadata.ns
      (statusMutation worker w1.now).metadata.name = some worker := by
    rw [hmeta, hns, hname, hwkeq, hw]
  have hsu2 : statusUpdate w1 (statusMutation worker w1.now) =
      ({ w1 with
          workers := storePut w1.workers
            { worker with status := (statusMutation worker w1.now).status }
          trace := w1.trace ++ [Event.statusWrite (statusMutation worker w1.now).metadata.ns
            (statusMutation worker w1.now).metadata.name] },
       GoResult.ok ()) := by
    unfold statusUpdate
    rw [show w1.statusUpdateFails = false from by rw [hsueq]; exact hu]
    simp only [Bool.false_eq_true, if_false]
    rw [hlive]
  simp only [Reconcile, hg, Bool.false_eq_true, if_false, hw, hrs, hsu2]
  refine ⟨by trivial, { worker with status := (statusMutation worker w1.now).status },
    ?_, hphase, ?_, ?_⟩
  · have hkey2 : storeGet (storePut w1.workers
        { worker with status := (statusMutation worker w1.now).status })
        worker.metadata.ns worker.metadata.name =
        some { worker with status := (statusMutation worker w1.now).status } :=
      storeGet_storePut_self w1.workers
        { worker with status := (statusMutation worker w1.now).status }
    rw [hns, hname] at hkey2
    exact hkey2
  · intro hnone
    have hcap := hinitCap hnone
    exact ⟨hcap.1, by rw [← hnow]; exact hcap.2⟩
  · intro c hc
    exact hkeepCap c hc

/-- C6 witness: one successful pass over a fresh worker with capacity 10. -/
theorem capacity_initialization_witness :
    (Reconcile cfgEx wGood ⟨"default", "alpha"⟩).err = none ∧
    ∃ wk, storeGet (Reconcile cfgEx wGood ⟨"default", "alpha"⟩).world.workers
        "default" "alpha" = some wk ∧
      wk.status.phase = workerRunning ∧
      (workerEx.status.availableCapacity = none →
        wk.status.availableCapacity = some workerEx.spec.capacity ∧
        wk.status.lastScheduledTime = some wGood.now) ∧
      (∀ c, workerEx.status.availableCapacity = some c →
        wk.status.availableCapacity = some c ∧
        wk.status.lastScheduledTime = workerEx.status.lastScheduledTime) :=
  capacity_initialization cfgEx wGood ⟨"default", "alpha"⟩ workerEx rfl (by decide)
    (by decide) rfl

end Carp

